import Mathlib

/-!
Shallow embedding of `src/server.py` (the "dislike-coach" MCP server).

Text is modelled as `List Char`.  Python `str.strip`, `str.upper`,
`str.lower`, truthiness, `float(...)` and `json.loads` are modelled by
executable Lean functions below; each such model carries a doc comment
saying which runtime builtin it stands for.  Python floats are modelled
as exact rationals extended with NaN and signed infinity: the code only
ever compares them against 0 and 1, so exact rationals are faithful for
every comparison the program performs.
-/

set_option maxRecDepth 10000

/-- Program text: a Python `str` as a list of characters. -/
abbrev Chars := List Char

/-- The backtick character (used by the markdown fence handling). -/
def btick : Char := Char.ofNat 96

/-- The double-quote character. -/
def qmark : Char := Char.ofNat 34

/-- The backslash character. -/
def bslash : Char := Char.ofNat 92

/-- The opening-brace character. -/
def obrace : Char := Char.ofNat 123

/-- The closing-brace character. -/
def cbrace : Char := Char.ofNat 125

/-- JSON whitespace (`json.loads` skips exactly space, tab, LF, CR). -/
def jsonWsB (c : Char) : Bool :=
  c == ' ' || c == '\t' || c == '\n' || c == '\r'

/-- Whitespace stripped by Python `str.strip()` (ASCII part: JSON
whitespace plus vertical tab and form feed). -/
def isPyWs (c : Char) : Bool :=
  jsonWsB c || c == Char.ofNat 11 || c == Char.ofNat 12

/-- Drop trailing characters satisfying `p` (the suffix half of
Python `str.strip`). -/
def dropTrailing (p : Char → Bool) (l : Chars) : Chars :=
  (l.reverse.dropWhile p).reverse

/-- Strip characters satisfying `p` from both ends, like Python
`str.strip(chars)`. -/
def stripBy (p : Char → Bool) (l : Chars) : Chars :=
  dropTrailing p (l.dropWhile p)

/-- Model of Python `str.strip()` (no argument: strip whitespace). -/
def pyStrip (l : Chars) : Chars := stripBy isPyWs l

/-- Model of Python `str.lower()` (ASCII case mapping). -/
def pyLower (l : Chars) : Chars := l.map Char.toLower

/-- Model of Python `str.upper()` (ASCII case mapping). -/
def pyUpper (l : Chars) : Chars := l.map Char.toUpper

/-- Model of Python `str.startswith`. -/
def startsWithL : Chars → Chars → Bool
  | [], _ => true
  | _ :: _, [] => false
  | p :: ps, c :: cs => p == c && startsWithL ps cs

/-- A Python float: exact rationals plus NaN and the two infinities.
Exact where the program only compares against small constants. -/
inductive PFloat where
  | fin (q : ℚ)
  | nan
  | inf (neg : Bool)
deriving DecidableEq

/-- IEEE-style `<` on modelled floats (NaN is incomparable, as in
Python). -/
def pfLt : PFloat → PFloat → Bool
  | PFloat.nan, _ => false
  | _, PFloat.nan => false
  | PFloat.inf true, PFloat.inf true => false
  | PFloat.inf true, _ => true
  | _, PFloat.inf true => false
  | PFloat.inf false, _ => false
  | PFloat.fin _, PFloat.inf false => true
  | PFloat.fin a, PFloat.fin b => decide (a < b)

/-- IEEE-style `<=` on modelled floats (false whenever NaN is
involved, as in Python). -/
def pfLe : PFloat → PFloat → Bool
  | PFloat.nan, _ => false
  | _, PFloat.nan => false
  | PFloat.inf true, _ => true
  | _, PFloat.inf true => false
  | _, PFloat.inf false => true
  | PFloat.inf false, PFloat.fin _ => false
  | PFloat.fin a, PFloat.fin b => decide (a ≤ b)

/-- A number produced by `json.loads`: Python keeps `int` and `float`
apart. -/
inductive JNum where
  | int (n : ℤ)
  | float (f : PFloat)
deriving DecidableEq

mutual
/-- A value produced by `json.loads`. -/
inductive Json where
  | null
  | bool (b : Bool)
  | num (n : JNum)
  | str (s : Chars)
  | arr (xs : JList)
  | obj (kvs : JObj)

/-- A parsed JSON array. -/
inductive JList where
  | nil
  | cons (j : Json) (rest : JList)

/-- A parsed JSON object, in source order (a later binding of the same
key overrides an earlier one, as in a Python dict built by insertion). -/
inductive JObj where
  | nil
  | cons (k : Chars) (v : Json) (rest : JObj)
end

/-- Value of a hex digit, if any (for `\uXXXX` escapes). -/
def hexNibble (c : Char) : Option Nat :=
  if c.isDigit then some (c.toNat - 48)
  else if 'a' ≤ c ∧ c ≤ 'f' then some (c.toNat - 87)
  else if 'A' ≤ c ∧ c ≤ 'F' then some (c.toNat - 55)
  else none

/-- Translation of a single-character JSON string escape. -/
def escCharOf (e : Char) : Option Char :=
  if e = qmark then some qmark
  else if e = bslash then some bslash
  else if e = '/' then some '/'
  else if e = 'b' then some (Char.ofNat 8)
  else if e = 'f' then some (Char.ofNat 12)
  else if e = 'n' then some '\n'
  else if e = 'r' then some '\r'
  else if e = 't' then some '\t'
  else none

/-- Model of the JSON string scanner of `json.loads`, applied after the
opening quote: returns the decoded content and the input after the
closing quote.  Raw control characters are rejected, as in strict-mode
Python.  `\uXXXX` becomes the character with that code (surrogate
pairs are not recombined; no claim exercises them). -/
def parseStrBody : Chars → Option (Chars × Chars)
  | [] => none
  | c :: rest =>
    if c = qmark then some ([], rest)
    else if c = bslash then
      match rest with
      | [] => none
      | e :: rest2 =>
        if e = 'u' then
          match rest2 with
          | h1 :: h2 :: h3 :: h4 :: rest3 => do
            let n1 ← hexNibble h1
            let n2 ← hexNibble h2
            let n3 ← hexNibble h3
            let n4 ← hexNibble h4
            let (s, r) ← parseStrBody rest3
            some (Char.ofNat (((n1 * 16 + n2) * 16 + n3) * 16 + n4) :: s, r)
          | _ => none
        else do
          let ec ← escCharOf e
          let (s, r) ← parseStrBody rest2
          some (ec :: s, r)
    else if c.toNat < 32 then none
    else do
      let (s, r) ← parseStrBody rest
      some (c :: s, r)

/-- Numeric value of a run of decimal digits. -/
def natOfDigits (ds : Chars) : Nat :=
  ds.foldl (fun a c => 10 * a + (c.toNat - 48)) 0

/-- Scale a rational by a signed power of ten (exponent handling of the
number grammar). -/
def applyExp (q : ℚ) (eneg : Bool) (e : Nat) : ℚ :=
  if eneg then q / 10 ^ e else q * 10 ^ e

/-- Model of the JSON number grammar of `json.loads`: optional minus,
integer part without leading zeros, optional fraction, optional
exponent.  A number without fraction or exponent is a Python `int`;
otherwise a float (modelled as an exact rational). -/
def parseNum (l : Chars) : Option (JNum × Chars) :=
  let (neg, l1) :=
    match l with
    | c :: r => if c = '-' then (true, r) else (false, l)
    | [] => (false, l)
  let (ds, l2) := l1.span (fun c => c.isDigit)
  if ds.isEmpty then none
  else if 1 < ds.length ∧ ds.head? = some '0' then none
  else
    let intVal : Nat := natOfDigits ds
    let (isFrac, q, l3) :=
      match l2 with
      | c :: r =>
        if c = '.' then
          let (fs, l3) := r.span (fun c : Char => c.isDigit)
          if fs.isEmpty then (none, (0 : ℚ), l2)
          else
            (some true,
              (intVal : ℚ) + (natOfDigits fs : ℚ) / 10 ^ fs.length, l3)
        else (some false, (intVal : ℚ), l2)
      | [] => (some false, (intVal : ℚ), l2)
    match isFrac with
    | none => none
    | some isF =>
      let signedQ : ℚ := if neg then -q else q
      match l3 with
      | c :: r =>
        if c = 'e' ∨ c = 'E' then
          let (eneg, r1) :=
            match r with
            | d :: r2 =>
              if d = '+' then (false, r2)
              else if d = '-' then (true, r2)
              else (false, r)
            | [] => (false, r)
          let (es, r2) := r1.span (fun c : Char => c.isDigit)
          if es.isEmpty then none
          else
            some (JNum.float (PFloat.fin (applyExp signedQ eneg (natOfDigits es))), r2)
        else if isF then some (JNum.float (PFloat.fin signedQ), l3)
        else some (JNum.int (if neg then -(intVal : ℤ) else (intVal : ℤ)), l3)
      | [] =>
        if isF then some (JNum.float (PFloat.fin signedQ), l3)
        else some (JNum.int (if neg then -(intVal : ℤ) else (intVal : ℤ)), l3)

/-- Skip JSON whitespace. -/
def skipWs (l : Chars) : Chars := l.dropWhile jsonWsB

/-- What the recursive-descent scanner is being asked to read. -/
inductive PMode where
  | top
  | arrItems
  | objItems
deriving DecidableEq

/-- What a scanner step produced. -/
inductive POut where
  | jv (j : Json)
  | ja (xs : JList)
  | jo (kvs : JObj)

/-- Model of the recursive-descent value scanner of `json.loads`
(strict JSON plus the Python extensions `NaN`, `Infinity`,
`-Infinity`).  Fuel-indexed so that every recursion is structural;
`jsonLoads` supplies more fuel than any input can consume. -/
def parseP : Nat → PMode → Chars → Option (POut × Chars)
  | 0, _, _ => none
  | Nat.succ f, PMode.top, l =>
    match skipWs l with
    | [] => none
    | c :: rest =>
      if c = obrace then
        match skipWs rest with
        | d :: r2 =>
          if d = cbrace then some (POut.jv (Json.obj JObj.nil), r2)
          else
            match parseP f PMode.objItems rest with
            | some (POut.jo kvs, r3) => some (POut.jv (Json.obj kvs), r3)
            | _ => none
        | [] => none
      else if c = '[' then
        match skipWs rest with
        | d :: r2 =>
          if d = ']' then some (POut.jv (Json.arr JList.nil), r2)
          else
            match parseP f PMode.arrItems rest with
            | some (POut.ja xs, r3) => some (POut.jv (Json.arr xs), r3)
            | _ => none
        | [] => none
      else if c = qmark then
        match parseStrBody rest with
        | some (s, r2) => some (POut.jv (Json.str s), r2)
        | none => none
      else if c = 't' then
        match rest with
        | 'r' :: 'u' :: 'e' :: r2 => some (POut.jv (Json.bool true), r2)
        | _ => none
      else if c = 'f' then
        match rest with
        | 'a' :: 'l' :: 's' :: 'e' :: r2 => some (POut.jv (Json.bool false), r2)
        | _ => none
      else if c = 'n' then
        match rest with
        | 'u' :: 'l' :: 'l' :: r2 => some (POut.jv Json.null, r2)
        | _ => none
      else if c = 'N' then
        match rest with
        | 'a' :: 'N' :: r2 => some (POut.jv (Json.num (JNum.float PFloat.nan)), r2)
        | _ => none
      else if c = 'I' then
        match rest with
        | 'n' :: 'f' :: 'i' :: 'n' :: 'i' :: 't' :: 'y' :: r2 =>
          some (POut.jv (Json.num (JNum.float (PFloat.inf false))), r2)
        | _ => none
      else if c = '-' then
        match rest with
        | 'I' :: 'n' :: 'f' :: 'i' :: 'n' :: 'i' :: 't' :: 'y' :: r2 =>
          some (POut.jv (Json.num (JNum.float (PFloat.inf true))), r2)
        | _ =>
          match parseNum (c :: rest) with
          | some (n, r2) => some (POut.jv (Json.num n), r2)
          | none => none
      else
        match parseNum (c :: rest) with
        | some (n, r2) => some (POut.jv (Json.num n), r2)
        | none => none
  | Nat.succ f, PMode.arrItems, l =>
    match parseP f PMode.top l with
    | some (POut.jv j, r) =>
      (match skipWs r with
        | c :: r2 =>
          if c = ']' then some (POut.ja (JList.cons j JList.nil), r2)
          else if c = ',' then
            match parseP f PMode.arrItems r2 with
            | some (POut.ja xs, r3) => some (POut.ja (JList.cons j xs), r3)
            | _ => none
          else none
        | [] => none)
    | _ => none
  | Nat.succ f, PMode.objItems, l =>
    match skipWs l with
    | c :: rest =>
      if c = qmark then
        match parseStrBody rest with
        | some (k, r1) =>
          (match skipWs r1 with
            | d :: r2 =>
              if d = ':' then
                match parseP f PMode.top r2 with
                | some (POut.jv v, r3) =>
                  (match skipWs r3 with
                    | e :: r4 =>
                      if e = cbrace then some (POut.jo (JObj.cons k v JObj.nil), r4)
                      else if e = ',' then
                        match parseP f PMode.objItems r4 with
                        | some (POut.jo kvs, r5) =>
                          some (POut.jo (JObj.cons k v kvs), r5)
                        | _ => none
                      else none
                    | [] => none)
                | _ => none
              else none
            | [] => none)
        | none => none
      else none
    | [] => none

/-- Model of Python `json.loads`: parse one value, then require only
whitespace to remain.  `none` models `json.JSONDecodeError`. -/
def jsonLoads (l : Chars) : Option Json :=
  match parseP (l.length + 2) PMode.top l with
  | some (POut.jv j, rest) => if (skipWs rest).isEmpty then some j else none
  | _ => none

/-- Lookup in a parsed object with Python-dict semantics: a later
binding of the same key wins (`json.loads` builds the dict by
insertion, so later duplicates overwrite earlier ones). -/
def objFind : JObj → Chars → Option Json
  | JObj.nil, _ => none
  | JObj.cons k v rest, key =>
    match objFind rest key with
    | some r => some r
    | none => if k == key then some v else none

/-- Model of Python `dict.get(key, default)`. -/
def dGet (kvs : JObj) (key : Chars) (dflt : Json) : Json :=
  (objFind kvs key).getD dflt

/-- Model of Python truthiness on values decoded by `json.loads`
(`None`, `False`, numeric zero, and empty strings/containers are
falsy; NaN and the infinities are truthy). -/
def jTruthy : Json → Bool
  | Json.null => false
  | Json.bool b => b
  | Json.num (JNum.int n) => n != 0
  | Json.num (JNum.float (PFloat.fin q)) => q != 0
  | Json.num (JNum.float PFloat.nan) => true
  | Json.num (JNum.float (PFloat.inf _)) => true
  | Json.str s => !s.isEmpty
  | Json.arr JList.nil => false
  | Json.arr (JList.cons _ _) => true
  | Json.obj JObj.nil => false
  | Json.obj (JObj.cons _ _ _) => true

/-- Model of the Python expression `a or b` on decoded values. -/
def jOr (a b : Json) : Json := if jTruthy a then a else b

/-- Decimal digits of a natural number. -/
def natChars (n : Nat) : Chars := Nat.toDigits 10 n

/-- Decimal rendering of an integer, as Python `str(int)`. -/
def intChars : Int → Chars
  | Int.ofNat n => natChars n
  | Int.negSucc m => '-' :: natChars (m + 1)

/-- Model of Python `str(float)` / `repr(float)`.  The decimal
rendering of finite values is simplified to `num/den` form when the
value is not an integer (Python prints a shortest decimal instead);
no claim evaluates it on a non-integral finite float. -/
def pfChars : PFloat → Chars
  | PFloat.nan => ('n' :: 'a' :: 'n' :: [])
  | PFloat.inf false => ('i' :: 'n' :: 'f' :: [])
  | PFloat.inf true => ('-' :: 'i' :: 'n' :: 'f' :: [])
  | PFloat.fin q =>
    if q.den = 1 then intChars q.num ++ ('.' :: '0' :: [])
    else intChars q.num ++ ('/' :: natChars q.den)

mutual
/-- Model of Python `repr` on values decoded by `json.loads` (inner
strings are quoted with a single quote; the escaping Python applies
inside `repr` of a string is not modelled — no claim exercises it). -/
def pyReprJ : Json → Chars
  | Json.null => ('N' :: 'o' :: 'n' :: 'e' :: [])
  | Json.bool true => ('T' :: 'r' :: 'u' :: 'e' :: [])
  | Json.bool false => ('F' :: 'a' :: 'l' :: 's' :: 'e' :: [])
  | Json.num (JNum.int n) => intChars n
  | Json.num (JNum.float f) => pfChars f
  | Json.str s => Char.ofNat 39 :: (s ++ (Char.ofNat 39 :: []))
  | Json.arr xs => '[' :: (pyReprL xs ++ (']' :: []))
  | Json.obj kvs => obrace :: (pyReprO kvs ++ (cbrace :: []))

/-- Comma-separated `repr` of array elements. -/
def pyReprL : JList → Chars
  | JList.nil => []
  | JList.cons j JList.nil => pyReprJ j
  | JList.cons j rest => pyReprJ j ++ (',' :: ' ' :: pyReprL rest)

/-- Comma-separated `repr` of object entries. -/
def pyReprO : JObj → Chars
  | JObj.nil => []
  | JObj.cons k v JObj.nil =>
    (Char.ofNat 39 :: (k ++ (Char.ofNat 39 :: []))) ++ (':' :: ' ' :: pyReprJ v)
  | JObj.cons k v rest =>
    (Char.ofNat 39 :: (k ++ (Char.ofNat 39 :: []))) ++
      (':' :: ' ' :: (pyReprJ v ++ (',' :: ' ' :: pyReprO rest)))
end

/-- Model of Python `str(x)` on values decoded by `json.loads`: a
string is returned as is, everything else as its `repr`/`str`
rendering. -/
def pyStr : Json → Chars
  | Json.str s => s
  | j => pyReprJ j

/-- Model of the Python builtin `float(str)`: strip whitespace, accept
an optional sign followed by `nan`, `inf`, `infinity` (any case) or a
decimal numeral (digit underscores are not modelled).  `none` models
`ValueError`. -/
def floatOfText (s : Chars) : Option PFloat :=
  let t := pyStrip s
  let (neg, t1) :=
    match t with
    | c :: r =>
      if c = '-' then (true, r) else if c = '+' then (false, r) else (false, t)
    | [] => (false, t)
  let low := pyLower t1
  if low = ('n' :: 'a' :: 'n' :: []) then some PFloat.nan
  else if low = ('i' :: 'n' :: 'f' :: []) then some (PFloat.inf neg)
  else if low = ('i' :: 'n' :: 'f' :: 'i' :: 'n' :: 'i' :: 't' :: 'y' :: []) then
    some (PFloat.inf neg)
  else
    let (ds, t2) := t1.span (fun c : Char => c.isDigit)
    let (fs, t3) :=
      match t2 with
      | c :: r => if c = '.' then r.span (fun c : Char => c.isDigit) else ([], t2)
      | [] => ([], t2)
    if ds.isEmpty ∧ fs.isEmpty then none
    else
      let q : ℚ := (natOfDigits ds : ℚ) + (natOfDigits fs : ℚ) / 10 ^ fs.length
      let q := if neg then -q else q
      match t3 with
      | [] => some (PFloat.fin q)
      | c :: r =>
        if c = 'e' ∨ c = 'E' then
          let (eneg, r1) :=
            match r with
            | d :: r2 =>
              if d = '+' then (false, r2)
              else if d = '-' then (true, r2)
              else (false, r)
            | [] => (false, r)
          let (es, r2) := r1.span (fun c : Char => c.isDigit)
          if es.isEmpty ∨ !r2.isEmpty then none
          else some (PFloat.fin (applyExp q eneg (natOfDigits es)))
        else none

/-- Model of the Python builtin `float(x)` on a value decoded by
`json.loads` (or on the float default `0.5`): `none` models the
`TypeError`/`ValueError` caught by the source.  `float` of an
astronomically large `int` would raise `OverflowError` in Python;
that is not modelled (no claim exercises it). -/
def pyFloatCoe : Json → Option PFloat
  | Json.num (JNum.int n) => some (PFloat.fin (n : ℚ))
  | Json.num (JNum.float f) => some f
  | Json.bool b => some (PFloat.fin (if b then 1 else 0))
  | Json.str s => floatOfText s
  | Json.null => none
  | Json.arr _ => none
  | Json.obj _ => none

/-- The canonical result shape returned by the normalizer (the five
keys of the returned dict, in source order). -/
structure AnalyzeResult where
  summary : Chars
  root_causes : List Chars
  suggested_prompt : Chars
  alternatives : List Chars
  confidence : PFloat
deriving DecidableEq

/-- Errors the embedded code can raise: `AttributeError` from calling
`.get` on a non-dict, `RuntimeError` from the missing-API-key check. -/
inductive PyErr where
  | attributeError
  | runtimeError
deriving DecidableEq

/-- The fixed fallback dict returned when `json.loads` raises
(`server.py` lines 142-150). -/
def degradedResult : AnalyzeResult :=
  { summary := ("Model output was not valid JSON.").data
    root_causes :=
      [("The coach model did not follow the strict JSON-only instructions.").data]
    suggested_prompt := ("Please help me debug why my last LLM answer was bad.").data
    alternatives := []
    confidence := PFloat.fin (3 / 10) }

/-- Key `"summary"`. -/
def keySummary : Chars := ("summary").data

/-- Key `"root_causes"`. -/
def keyRootCauses : Chars := ("root_causes").data

/-- Key `"alternatives"`. -/
def keyAlternatives : Chars := ("alternatives").data

/-- Key `"suggested_prompt"`. -/
def keySuggested : Chars := ("suggested_prompt").data

/-- Key `"confidence"`. -/
def keyConfidence : Chars := ("confidence").data

/-- `"Unknown user goal."` (default summary). -/
def unknownGoal : Chars := ("Unknown user goal.").data

/-- `"Help me with the following: "` (prefixed to the summary when the
model omitted a suggested prompt). -/
def helpLead : Chars := ("Help me with the following: ").data

/-- The generic suggested-prompt fallback. -/
def genericFallback : Chars :=
  ("Help me refine my question so I can get a better answer than last time.").data

/-- `str(data.get("summary", "") or "").strip()` (line 153). -/
def summaryRawOf (kvs : JObj) : Chars :=
  pyStrip (pyStr (jOr (dGet kvs keySummary (Json.str [])) (Json.str [])))

/-- `str(data.get("suggested_prompt", "") or "").strip()` (line 156). -/
def suggestedRawOf (kvs : JObj) : Chars :=
  pyStrip (pyStr (jOr (dGet kvs keySuggested (Json.str [])) (Json.str [])))

/-- Elements of a parsed array, as a Lean list. -/
def jlistElems : JList → List Json
  | JList.nil => []
  | JList.cons j rest => j :: jlistElems rest

/-- List normalization used for `root_causes` and `alternatives`
(lines 160-170): a list keeps its non-blank entries coerced to text, a
truthy scalar is wrapped, anything else becomes the empty list. -/
def coerceStrList (v : Json) : List Chars :=
  match v with
  | Json.arr xs =>
    ((jlistElems xs).map pyStr).filter (fun s => !(pyStrip s).isEmpty)
  | w => if jTruthy w then [pyStr w] else []

/-- Field normalization applied to a parsed JSON object
(`server.py` lines 152-197). -/
def normalizeObj (kvs : JObj) : AnalyzeResult :=
  let summary := summaryRawOf kvs
  let root_causes_raw := jOr (dGet kvs keyRootCauses Json.null) (Json.arr JList.nil)
  let alternatives_raw := jOr (dGet kvs keyAlternatives Json.null) (Json.arr JList.nil)
  let suggested0 := suggestedRawOf kvs
  let confidence_raw := dGet kvs keyConfidence (Json.num (JNum.float (PFloat.fin (1 / 2))))
  let root_causes := coerceStrList root_causes_raw
  let alternatives := coerceStrList alternatives_raw
  let conf0 := (pyFloatCoe confidence_raw).getD (PFloat.fin (1 / 2))
  let conf1 := if pfLt conf0 (PFloat.fin 0) then PFloat.fin 0 else conf0
  let conf2 := if pfLt (PFloat.fin 1) conf1 then PFloat.fin 1 else conf1
  let suggested1 :=
    if suggested0.isEmpty && !summary.isEmpty then helpLead ++ summary else suggested0
  let suggested2 := if suggested1.isEmpty then genericFallback else suggested1
  { summary := if summary.isEmpty then unknownGoal else summary
    root_causes := root_causes
    suggested_prompt := suggested2
    alternatives := alternatives
    confidence := conf2 }

/-- `"```"` (fence marker tested by `text.startswith`). -/
def fenceMark : Chars := btick :: btick :: btick :: []

/-- `"json"` (language tag tested after fence stripping). -/
def jsonWord : Chars := 'j' :: 's' :: 'o' :: 'n' :: []

/-- The text-massaging prefix of `parse_and_normalize_output`
(lines 129-136): strip whitespace, then strip backtick fences, then
drop a leading `json` language tag. -/
def preprocess (raw : Chars) : Chars :=
  let text := pyStrip raw
  if startsWithL fenceMark text then
    let text := stripBy (fun c => c == btick) text
    if startsWithL jsonWord (pyLower text) then pyStrip (text.drop 4) else text
  else text

/-- Embedding of `parse_and_normalize_output` (lines 122-197).
`Except.error` models an uncaught Python exception escaping the
function. -/
def parse_and_normalize_output (raw : Chars) : Except PyErr AnalyzeResult :=
  match jsonLoads (preprocess raw) with
  | none => Except.ok degradedResult
  | some (Json.obj kvs) => Except.ok (normalizeObj kvs)
  | some _ => Except.error PyErr.attributeError

/-- One entry of the `messages` argument: a Python dict with optional
`"role"` and `"content"` keys (`none` models a missing key, `some []`
a key bound to the empty string). -/
structure ChatMessage where
  role : Option Chars
  content : Option Chars
deriving DecidableEq

/-- The truncation bound of `build_user_prompt` (line 42:
`messages[-4:]`, "last 4 messages = 2 turns"). -/
def window_size : Nat := 4

/-- `messages[-4:]` (line 42). -/
def truncatedOf (messages : List ChatMessage) : List ChatMessage :=
  messages.drop (messages.length - window_size)

/-- Model of the Python expression `opt or dflt` for an optional
string (missing key and empty string both fall back). -/
def orText (opt : Option Chars) (dflt : Chars) : Chars :=
  match opt with
  | none => dflt
  | some s => if s.isEmpty then dflt else s

/-- `"user"` (role fallback). -/
def userWord : Chars := ("user").data

/-- `(m.get("role") or "user").upper()` (line 47). -/
def roleOf (m : ChatMessage) : Chars := pyUpper (orText m.role userWord)

/-- One `"ROLE: content"` transcript line, or `none` for a message
whose stripped content is empty (lines 46-51). -/
def renderLine (m : ChatMessage) : Option Chars :=
  let content := pyStrip (m.content.getD [])
  if content.isEmpty then none
  else some (roleOf m ++ ((':' :: ' ' :: []) ++ content))

/-- The rendered transcript lines of the truncated window. -/
def convoLines (ms : List ChatMessage) : List Chars :=
  ms.filterMap renderLine

/-- The loop condition of the last-user scan (line 57):
`m.get("role") == "user" and m.get("content")`. -/
def isUserMsg (m : ChatMessage) : Bool :=
  (m.role == some userWord) && !(m.content.getD []).isEmpty

/-- `"(unknown last user message)"`. -/
def unknownSentinel : Chars := ("(unknown last user message)").data

/-- The `for m in reversed(truncated)` scan with `break`
(lines 55-59), expressed over the already-reversed list. -/
def lastUserLoop : List ChatMessage → Chars
  | [] => unknownSentinel
  | m :: rest =>
    if isUserMsg m then pyStrip (m.content.getD []) else lastUserLoop rest

/-- The `last_user` value computed from the truncated window. -/
def lastUserOf (truncated : List ChatMessage) : Chars :=
  lastUserLoop truncated.reverse

/-- `"(none)"` (placeholder for an absent comment or hint). -/
def noneWord : Chars := ("(none)").data

/-- Template text from the start of the f-string up to `{convo}`
(lines 62-107 of `server.py`), transcribed verbatim. -/
def tmplHead : Chars :=
  ("\nYou are a PROMPT REWRITER for LLM chats.\n\nYou will receive:\n- A short conversation between a USER and an ASSISTANT.\n- The USER\x27s most recent message.\n- An optional user comment explaining why they disliked the last answer.\n- An optional hint about the task domain.\n\nYour job is to:\n1. Infer what the user REALLY wanted, especially from the LAST user message.\n2. Briefly understand why the last answer failed.\n3. Produce a SINGLE, SELF-CONTAINED prompt that the user can send to the SAME assistant to get a much better answer.\n\nCRITICAL RULES FOR \"suggested_prompt\":\n- It MUST be written in the FIRST-PERSON perspective, as if the user is directly talking to the assistant.\n  - Use \"you\" to refer to the assistant.\n  - Use \"I\", \"me\", and \"my\" to refer to the user.\n- Avoid generic phrases like \"the user\" or \"users\" when describing benefits.\n  - Prefer phrasing such as \"how it benefits me\" or \"how it improves my experience\".\n- It MUST NOT mention \"the user\", \"the assistant\", \"previous discussion\", \"conversation above\", \"earlier answer\", or thumbs-down feedback.\n- It MUST be SELF-CONTAINED: it should make sense even if the assistant never saw the prior conversation.\n- It MUST directly request the desired result (explanation, code, design, plan, etc.).\n- It CAN add clarifying constraints based on context (e.g. \"in simple terms\", \"with 3 concrete UX improvements\", \"step-by-step\").\n- It SHOULD be clear, concise, and specific.\n\nExamples of BAD suggested_prompt (DO NOT WRITE THESE):\n- \"Based on the previous discussion, can you...\"\n- \"Provide HTML/CSS for a login page for the user...\"\n- \"Explain to the user how Docker works.\"\n- \"Explain how this improves the user\x27s experience.\"\n\nExamples of GOOD suggested_prompt (STYLE TO FOLLOW):\n- \"Explain Kubernetes pods to me in simple terms using a real-world analogy, and give me 3 concrete use cases.\"\n- \"Give me HTML/CSS for a simple login page, and include 3 specific modern UX improvements. Explain how each improvement helps me.\"\n- \"Explain how neural networks work to me in beginner-friendly language, using a clear analogy and a short example.\"\n\nYou will output STRICT JSON with these keys:\n- \"summary\"\n- \"root_causes\"\n- \"suggested_prompt\"\n- \"alternatives\"\n- \"confidence\"\n\nFull conversation:\n").data

/-- Template text between `{convo}` and `{last_user}`. -/
def tmplAfterConvo : Chars :=
  ("\n\nLast user message (for focus):\n").data

/-- Template text between `{last_user}` and the comment slot. -/
def tmplAfterLast : Chars := ("\n\nUser comment:\n").data

/-- Template text between the comment slot and the hint slot. -/
def tmplAfterComment : Chars := ("\n\nTask hint:\n").data

/-- Embedding of `build_user_prompt` (lines 32-117). -/
def build_user_prompt (messages : List ChatMessage)
    (user_comment task_hint : Option Chars) : Chars :=
  let truncated := truncatedOf messages
  let convo := List.intercalate ('\n' :: []) (convoLines truncated)
  let last_user := lastUserOf truncated
  pyStrip
    (tmplHead ++ convo ++ tmplAfterConvo ++ last_user ++ tmplAfterLast ++
      orText user_comment noneWord ++ tmplAfterComment ++
      orText task_hint noneWord ++ ('\n' :: []))

/-- The external generation capability: for call index `k` and prompt
text, the `.text` attribute of the response (`none` models a missing
or `None` text attribute). -/
structure GenEnv where
  gen : Nat → Chars → Option Chars

/-- Embedding of the `analyze_dislike` tool (lines 202-245), with the
`GEMINI_API_KEY` environment variable and the generation backend as
explicit parameters.  Returns the result (or the uncaught exception)
together with the number of outbound generation calls performed. -/
def analyze_dislike (apiKey : Option Chars) (env : GenEnv)
    (messages : List ChatMessage) (user_comment task_hint : Option Chars) :
    Except PyErr AnalyzeResult × Nat :=
  match apiKey with
  | none => (Except.error PyErr.runtimeError, 0)
  | some k =>
    if k.isEmpty then (Except.error PyErr.runtimeError, 0)
    else
      let user_prompt := build_user_prompt messages user_comment task_hint
      let calls := 0
      let resp := env.gen calls user_prompt
      let calls := calls + 1
      let raw_text := resp.getD []
      (parse_and_normalize_output raw_text, calls)

/-- `"[1, 2, 3]"`: raw text that parses as a JSON array. -/
def rawArrayInput : Chars := ("[1, 2, 3]").data

/-- Raw text whose parsed `confidence` is the string `"nan"`. -/
def rawNanInput : Chars := ("\x7b\"confidence\": \"nan\"\x7d").data

/-- The result the normalizer produces for `rawNanInput`. -/
def nanConfResult : AnalyzeResult :=
  { summary := unknownGoal
    root_causes := []
    suggested_prompt := genericFallback
    alternatives := []
    confidence := PFloat.nan }

/-- `"not json at all"`. -/
def notJsonText : Chars := ("not json at all").data

/-- A JSON object embedded in surrounding prose. -/
def proseJsonText : Chars :=
  ("Sure! \x7b\"summary\": \"s\"\x7d Hope that helps").data

/-- The bare JSON object embedded in `proseJsonText`. -/
def embeddedObjText : Chars := ("\x7b\"summary\": \"s\"\x7d").data

/-- The parse of `embeddedObjText`. -/
def kvsEmb : JObj := JObj.cons keySummary (Json.str (("s").data)) JObj.nil

/-- A generation backend that always answers `"not json at all"`. -/
def env0 : GenEnv := { gen := fun _ _ => some notJsonText }

/-- A non-empty API key. -/
def apiKeyEx : Chars := ("k").data

/-- A user message with content `"hello"`. -/
def mUserHello : ChatMessage :=
  { role := some userWord, content := some (("hello").data) }

/-- A user message with empty content. -/
def mUserEmpty : ChatMessage := { role := some userWord, content := some [] }

/-- A trimmed sequence ending in a user message with empty content. -/
def msgsC6 : List ChatMessage := [mUserHello, mUserEmpty]

/-- A parsed object with a summary but no suggested prompt. -/
def kvsGoal : JObj := JObj.cons keySummary (Json.str (("goal").data)) JObj.nil

/-- Five distinguishable messages (one more than the window). -/
def msgsFive : List ChatMessage :=
  [ { role := some userWord, content := some (("m1").data) }
  , { role := some userWord, content := some (("m2").data) }
  , { role := some userWord, content := some (("m3").data) }
  , { role := some userWord, content := some (("m4").data) }
  , { role := some userWord, content := some (("m5").data) } ]

/-- Two messages (fewer than the window). -/
def msgsTwo : List ChatMessage := [mUserHello, mUserEmpty]

/-- A message whose `"role"` key is missing. -/
def msgNoRole : ChatMessage := { role := none, content := some (("hi").data) }

/-- The transcript line rendered for `msgNoRole`. -/
def lineUserHi : Chars := ("USER: hi").data

/-- `"```json\n"`: the opening fence of the wrapped form in C8. -/
def fenceOpen : Chars :=
  btick :: btick :: btick :: 'j' :: 's' :: 'o' :: 'n' :: '\n' :: []

/-- `"\n```"`: the closing fence of the wrapped form in C8. -/
def fenceClose : Chars := '\n' :: btick :: btick :: btick :: []

/-- The fenced wrapping of a text: `"```json\n" + J + "\n```"`. -/
def fencedWrap (J : Chars) : Chars := fenceOpen ++ (J ++ fenceClose)

/-- C1.  The claim says the normalizer either returns a fully-formed
result or fails with an extraction failure, for any input including
raw text that parses as valid JSON but is not a JSON object.  The code
instead calls `.get` on whatever `json.loads` returned, so a JSON
array input raises `AttributeError` — neither a result nor an
extraction failure.  This contradicts the normalizer's own stated
purpose (and §4.4/§7 of the spec), so it is a code bug. -/
theorem normalizer_raises_on_json_array :
    parse_and_normalize_output rawArrayInput = Except.error PyErr.attributeError :=
  rfl

/-- C3.  The claim says every returned confidence lies in `[0, 1]`.
But `float("nan")` succeeds in Python, and NaN passes both clamp
comparisons (`nan < 0` and `nan > 1` are false), so the input
`{"confidence": "nan"}` yields a result whose confidence is NaN —
which satisfies neither `0.0 <= c` nor `c <= 1.0`.  This contradicts
the function's own docstring ("confidence is in [0, 1]"), so it is a
code bug. -/
theorem confidence_nan_escapes_clamp :
    parse_and_normalize_output rawNanInput = Except.ok nanConfResult ∧
    nanConfResult.confidence = PFloat.nan ∧
    (pfLe (PFloat.fin 0) nanConfResult.confidence &&
      pfLe nanConfResult.confidence (PFloat.fin 1)) = false :=
  ⟨rfl, rfl, rfl⟩

/-- C5.  A conversation longer than the window is cut to exactly
`window_size` trailing messages in original order (the dropped part is
the prefix), and a conversation that fits is kept unchanged. -/
theorem window_trailing_slice (l : List ChatMessage) :
    (window_size < l.length →
      (truncatedOf l).length = window_size ∧
        l.take (l.length - window_size) ++ truncatedOf l = l) ∧
    (l.length ≤ window_size → truncatedOf l = l) := by
  constructor
  · intro h
    refine ⟨?_, ?_⟩
    · simp only [truncatedOf, List.length_drop]
      omega
    · simp [truncatedOf]
  · intro h
    have hz : l.length - window_size = 0 := by omega
    simp [truncatedOf, hz]

/-- Witness for C5 at a five-message and a two-message conversation. -/
theorem window_trailing_slice_witness :
    ((truncatedOf msgsFive).length = window_size ∧
      msgsFive.take (msgsFive.length - window_size) ++ truncatedOf msgsFive = msgsFive) ∧
    truncatedOf msgsTwo = msgsTwo :=
  ⟨(window_trailing_slice msgsFive).1 (by decide),
   (window_trailing_slice msgsTwo).2 (by decide)⟩

/-- C7.  The prompt compiler is a pure function of its three
arguments: two invocations with identical inputs produce identical
text. -/
theorem build_user_prompt_deterministic (ms1 ms2 : List ChatMessage)
    (uc1 uc2 th1 th2 : Option Chars)
    (hm : ms1 = ms2) (hu : uc1 = uc2) (ht : th1 = th2) :
    build_user_prompt ms1 uc1 th1 = build_user_prompt ms2 uc2 th2 := by
  rw [hm, hu, ht]

/-- Witness for C7 at a concrete conversation. -/
theorem build_user_prompt_deterministic_witness :
    build_user_prompt [mUserHello] none none = build_user_prompt [mUserHello] none none :=
  build_user_prompt_deterministic [mUserHello] [mUserHello] none none none none
    rfl rfl rfl

/-- Counterexample to C2.  With a backend whose reply `"not json at
all"` fails JSON extraction, `analyze_dislike` still performs exactly
one generation call — there is no second attempt, so "exactly one
retry … at most two (and at least one) outbound generation calls"
fails in its retry part: the call count is 1, not 2. -/
theorem analyze_dislike_no_retry_cex :
    jsonLoads (preprocess notJsonText) = none ∧
    (analyze_dislike (some apiKeyEx) env0 [] none none).2 = 1 ∧
    ((analyze_dislike (some apiKeyEx) env0 [] none none).2 == 2) = false :=
  ⟨rfl, rfl, rfl⟩

/-- C2 as amended.  With a truthy API key, `analyze_dislike` makes
exactly one outbound generation call, and when that single reply fails
JSON extraction the fixed degraded result is returned directly — no
retry with a stricter instruction exists in the code. -/
theorem analyze_dislike_single_call (apiKey : Chars) (env : GenEnv)
    (ms : List ChatMessage) (uc th : Option Chars)
    (hk : apiKey.isEmpty = false) :
    (analyze_dislike (some apiKey) env ms uc th).2 = 1 ∧
    (jsonLoads (preprocess ((env.gen 0 (build_user_prompt ms uc th)).getD [])) = none →
      (analyze_dislike (some apiKey) env ms uc th).1 = Except.ok degradedResult) := by
  refine ⟨?_, ?_⟩
  · simp [analyze_dislike, hk]
  · intro h
    simp [analyze_dislike, hk, parse_and_normalize_output, h]

/-- Witness for C2's amended theorem at the concrete backend. -/
theorem analyze_dislike_single_call_witness :
    (analyze_dislike (some apiKeyEx) env0 [] none none).2 = 1 ∧
    (analyze_dislike (some apiKeyEx) env0 [] none none).1 = Except.ok degradedResult :=
  ⟨(analyze_dislike_single_call apiKeyEx env0 [] none none rfl).1,
   (analyze_dislike_single_call apiKeyEx env0 [] none none rfl).2 rfl⟩

/-- Counterexample to C4.  For a JSON object embedded in prose the
normalizer does not brace-scan: it returns the fixed degraded result,
whereas parsing the embedded object itself yields a result with
summary `"s"` — so normalization did not succeed via any
brace-scanning step. -/
theorem no_brace_scanning_cex :
    parse_and_normalize_output proseJsonText = Except.ok degradedResult ∧
    parse_and_normalize_output embeddedObjText = Except.ok (normalizeObj kvsEmb) ∧
    (normalizeObj kvsEmb).summary = ("s").data ∧
    (degradedResult.summary == ("s").data) = false :=
  ⟨rfl, rfl, rfl, rfl⟩

/-- C4 as amended.  The extraction pipeline has only two steps —
whitespace/fence stripping and one direct parse; whenever that parse
fails (as it does for JSON embedded in prose), the fixed degraded
fallback result is returned. -/
theorem extraction_failure_returns_degraded (raw : Chars)
    (h : jsonLoads (preprocess raw) = none) :
    parse_and_normalize_output raw = Except.ok degradedResult := by
  simp [parse_and_normalize_output, h]

/-- Witness for C4's amended theorem at the prose-embedded input. -/
theorem extraction_failure_returns_degraded_witness :
    parse_and_normalize_output proseJsonText = Except.ok degradedResult :=
  extraction_failure_returns_degraded proseJsonText rfl

/-- Counterexample to C6.  The trimmed sequence `msgsC6` ends in a
user message with empty content; the claim says the lookup selects
that trailing user message (so the result would be the empty text),
but the scan's `and m.get("content")` guard skips it and returns the
earlier `"hello"`. -/
theorem last_user_skips_blank_cex :
    msgsC6.getLast? = some mUserEmpty ∧
    mUserEmpty.role = some userWord ∧
    mUserEmpty.content = some [] ∧
    lastUserOf msgsC6 = ("hello").data ∧
    ((("hello").data : Chars).isEmpty) = false :=
  ⟨rfl, rfl, rfl, rfl, rfl⟩

/-- C6 as amended.  `last_user` is the trimmed content of the last
message of the window whose role is `"user"` and whose content is
truthy (non-missing, non-empty); the sentinel is returned when no such
message exists.  Messages with missing or empty content are skipped by
the lookup. -/
theorem last_user_scan_spec (l : List ChatMessage) :
    lastUserOf l =
      (l.reverse.find? isUserMsg).elim unknownSentinel
        (fun m => pyStrip (m.content.getD [])) := by
  unfold lastUserOf
  induction l.reverse with
  | nil => rfl
  | cons m rest ih =>
    by_cases h : isUserMsg m
    · simp [lastUserLoop, List.find?_cons, h]
    · simp [lastUserLoop, List.find?_cons, h, ih]

/-- Helper: `helpLead` is non-empty. -/
theorem helpLead_isEmpty_false : helpLead.isEmpty = false := rfl

/-- Helper: `genericFallback` is non-empty. -/
theorem genericFallback_isEmpty_false : genericFallback.isEmpty = false := rfl

/-- C9.  When the coerced-and-trimmed suggested prompt is empty and
the trimmed summary is not, the returned suggested prompt is
`"Help me with the following: "` followed by the summary; when both
are empty it is the fixed generic fallback; and it is never empty. -/
theorem suggested_prompt_fallbacks (kvs : JObj) :
    (suggestedRawOf kvs = [] → summaryRawOf kvs ≠ [] →
      (normalizeObj kvs).suggested_prompt = helpLead ++ summaryRawOf kvs) ∧
    (suggestedRawOf kvs = [] → summaryRawOf kvs = [] →
      (normalizeObj kvs).suggested_prompt = genericFallback) ∧
    (normalizeObj kvs).suggested_prompt.isEmpty = false := by
  have hH : helpLead ≠ ([] : Chars) := by decide
  have hG : genericFallback ≠ ([] : Chars) := by decide
  refine ⟨?_, ?_, ?_⟩
  · intro hp hs
    simp [normalizeObj, hp, hs, hH]
  · intro hp hs
    simp [normalizeObj, hp, hs]
  · by_cases hp : (suggestedRawOf kvs).isEmpty
    · by_cases hs : (summaryRawOf kvs).isEmpty
      · simp [normalizeObj, hp, hs, hG]
      · simp [normalizeObj, hp, hs, hH]
    · simp [normalizeObj, hp]

/-- Witness for C9 at an object carrying only a summary. -/
theorem suggested_prompt_fallbacks_witness :
    (normalizeObj kvsGoal).suggested_prompt = helpLead ++ summaryRawOf kvsGoal ∧
    (normalizeObj kvsGoal).suggested_prompt.isEmpty = false :=
  ⟨(suggested_prompt_fallbacks kvsGoal).1 rfl (by decide),
   (suggested_prompt_fallbacks kvsGoal).2.2⟩

/-- Helper: the rendered role of a message is never empty. -/
theorem roleOf_isEmpty_false (m : ChatMessage) : (roleOf m).isEmpty = false := by
  rcases m with ⟨r, c⟩
  cases r with
  | none => rfl
  | some s =>
    by_cases hs : s.isEmpty
    · have h1 : orText (some s) userWord = userWord := by simp [orText, hs]
      simp only [roleOf, h1]
      rfl
    · cases s with
      | nil => simp at hs
      | cons a t => simp [roleOf, orText, pyUpper]

/-- C10.  Every rendered transcript line carries a non-empty uppercase
role prefix, and a missing or empty role renders as the default
`USER`. -/
theorem transcript_role_defaults (ms : List ChatMessage) :
    (∀ line ∈ convoLines (truncatedOf ms),
      ∃ m, m ∈ truncatedOf ms ∧
        line = roleOf m ++ ((':' :: ' ' :: []) ++ pyStrip (m.content.getD [])) ∧
        (roleOf m).isEmpty = false) ∧
    (∀ m : ChatMessage, (m.role = none ∨ m.role = some []) →
      roleOf m = ("USER").data) := by
  constructor
  · intro line hline
    simp only [convoLines, List.mem_filterMap] at hline
    obtain ⟨m, hm, hrl⟩ := hline
    refine ⟨m, hm, ?_, roleOf_isEmpty_false m⟩
    unfold renderLine at hrl
    by_cases hc : (pyStrip (m.content.getD [])).isEmpty
    · simp [hc] at hrl
    · simp only [hc, if_neg Bool.false_ne_true, Option.some.injEq] at hrl
      exact hrl.symm
  · intro m hm
    have ho : orText m.role userWord = userWord := by
      rcases hm with h | h <;> simp [orText, h]
    simp only [roleOf, ho]
    rfl

/-- Witness for C10 at a one-message window whose role key is
missing. -/
theorem transcript_role_defaults_witness :
    (∃ m, m ∈ truncatedOf [msgNoRole] ∧
      lineUserHi = roleOf m ++ ((':' :: ' ' :: []) ++ pyStrip (m.content.getD [])) ∧
      (roleOf m).isEmpty = false) ∧
    roleOf msgNoRole = ("USER").data :=
  ⟨(transcript_role_defaults [msgNoRole]).1 lineUserHi (by decide),
   (transcript_role_defaults [msgNoRole]).2 msgNoRole (Or.inl rfl)⟩

/-- Helper: `dropTrailing` only removes a suffix. -/
theorem dropTrailing_prefix (p : Char → Bool) (l : Chars) :
    ∃ t, l = dropTrailing p l ++ t := by
  refine ⟨(l.reverse.takeWhile p).reverse, ?_⟩
  unfold dropTrailing
  rw [← List.reverse_append, List.takeWhile_append_dropWhile, List.reverse_reverse]

/-- Helper: the head of a stripped text is not whitespace. -/
theorem head_pyStrip_not_ws {J : Chars} {c : Char} {cs : Chars}
    (h : pyStrip J = c :: cs) : isPyWs c = false := by
  obtain ⟨t, ht⟩ := dropTrailing_prefix isPyWs (J.dropWhile isPyWs)
  have hx : J.dropWhile isPyWs = (c :: cs) ++ t := by
    rw [← h]
    exact ht
  have hd := List.head?_dropWhile_not isPyWs J
  rw [hx] at hd
  simpa using hd

/-- Helper: JSON whitespace is Python whitespace (contrapositive). -/
theorem jsonWsB_false_of_pyWs {c : Char} (h : isPyWs c = false) :
    jsonWsB c = false := by
  by_contra hb
  have hj : jsonWsB c = true := by
    revert hb
    cases jsonWsB c <;> simp
  unfold isPyWs at h
  rw [hj] at h
  simp at h

/-- Helper: `skipWs` is the identity on a text whose head is not JSON
whitespace. -/
theorem skipWs_eq_of_head {l : Chars} {c : Char} {cs : Chars}
    (h : l = c :: cs) (hc : jsonWsB c = false) : skipWs l = l := by
  subst h
  simp [skipWs, List.dropWhile_cons, hc]

/-- Helper: a text whose head is not a backtick does not start with
the fence marker. -/
theorem startsWith_fence_false {l : Chars} {c : Char} {cs : Chars}
    (h : l = c :: cs) (hc : (btick == c) = false) :
    startsWithL fenceMark l = false := by
  subst h
  simp [fenceMark, startsWithL, hc]

/-- Helper: the fenced wrapping is already whitespace-stripped. -/
theorem pyStrip_fencedWrap (J : Chars) :
    pyStrip (fencedWrap J) = fencedWrap J := by
  have hcons : fencedWrap J =
      btick :: (btick :: btick :: 'j' :: 's' :: 'o' :: 'n' :: '\n' :: [] ++ (J ++ fenceClose)) := by
    simp [fencedWrap, fenceOpen]
  have h1 : (fencedWrap J).dropWhile isPyWs = fencedWrap J := by
    rw [hcons, List.dropWhile_cons_of_neg (by decide)]
  have hrev : (fencedWrap J).reverse =
      btick :: btick :: btick :: '\n' :: (J.reverse ++ fenceOpen.reverse) := by
    simp [fencedWrap, fenceClose, List.reverse_append]
  have h2 : dropTrailing isPyWs (fencedWrap J) = fencedWrap J := by
    unfold dropTrailing
    rw [hrev, List.dropWhile_cons_of_neg (by decide), ← hrev, List.reverse_reverse]
  show stripBy isPyWs (fencedWrap J) = fencedWrap J
  unfold stripBy
  rw [h1, h2]

/-- Helper: the fenced wrapping starts with the fence marker. -/
theorem startsWith_fencedWrap (J : Chars) :
    startsWithL fenceMark (fencedWrap J) = true := by
  simp [fencedWrap, fenceOpen, fenceMark, startsWithL]

/-- Helper: backtick-stripping the fenced wrapping leaves
`"json\n" + J + "\n"`. -/
theorem stripBtick_fencedWrap (J : Chars) :
    stripBy (fun c => c == btick) (fencedWrap J) =
      'j' :: 's' :: 'o' :: 'n' :: '\n' :: (J ++ ('\n' :: [])) := by
  have hdw : (fencedWrap J).dropWhile (fun c => c == btick) =
      'j' :: 's' :: 'o' :: 'n' :: '\n' :: (J ++ fenceClose) := by
    have hcons : fencedWrap J =
        btick :: btick :: btick :: 'j' :: 's' :: 'o' :: 'n' :: '\n' :: (J ++ fenceClose) := by
      simp [fencedWrap, fenceOpen]
    rw [hcons, List.dropWhile_cons_of_pos (by decide),
      List.dropWhile_cons_of_pos (by decide), List.dropWhile_cons_of_pos (by decide),
      List.dropWhile_cons_of_neg (by decide)]
  have hrev : ('j' :: 's' :: 'o' :: 'n' :: '\n' :: (J ++ fenceClose)).reverse =
      btick :: btick :: btick :: '\n' ::
        (J.reverse ++ ('\n' :: 'n' :: 'o' :: 's' :: 'j' :: [])) := by
    simp [fenceClose, List.reverse_append]
  have hback : ('\n' :: (J.reverse ++ ('\n' :: 'n' :: 'o' :: 's' :: 'j' :: []))).reverse =
      'j' :: 's' :: 'o' :: 'n' :: '\n' :: (J ++ ('\n' :: [])) := by
    simp [List.reverse_append]
  unfold stripBy dropTrailing
  rw [hdw, hrev, List.dropWhile_cons_of_pos (by decide),
    List.dropWhile_cons_of_pos (by decide), List.dropWhile_cons_of_pos (by decide),
    List.dropWhile_cons_of_neg (by decide), hback]

/-- Helper: stripping a newline-padded text strips the text. -/
theorem pyStrip_nl_wrap (J : Chars) :
    pyStrip ('\n' :: (J ++ ('\n' :: []))) = pyStrip J := by
  unfold pyStrip stripBy
  rw [List.dropWhile_cons_of_pos (by decide), List.dropWhile_append]
  by_cases hJ : (J.dropWhile isPyWs).isEmpty
  · rw [if_pos hJ]
    have h1 : (('\n' :: []) : Chars).dropWhile isPyWs = [] := by decide
    have h2 : J.dropWhile isPyWs = [] := by simpa [List.isEmpty_iff] using hJ
    rw [h1, h2]
  · rw [if_neg hJ]
    unfold dropTrailing
    rw [List.reverse_append]
    have h3 : ((('\n' :: []) : Chars).reverse ++ (J.dropWhile isPyWs).reverse) =
        '\n' :: (J.dropWhile isPyWs).reverse := by simp
    rw [h3, List.dropWhile_cons_of_pos (by decide)]

/-- Helper: only an input whose first significant character is `{` can
scan to a JSON object at top level. -/
theorem parseP_top_obj_head {f : Nat} {l r : Chars} {kvs : JObj}
    (h : parseP f PMode.top l = some (POut.jv (Json.obj kvs), r)) :
    ∃ rest, skipWs l = obrace :: rest := by
  match f with
  | 0 => simp [parseP] at h
  | Nat.succ f =>
    simp only [parseP] at h
    split at h
    · simp at h
    · rename_i c rest hsl
      by_cases hc : c = obrace
      · exact ⟨rest, by rw [hsl, hc]⟩
      · exfalso
        rw [if_neg hc] at h
        repeat' split at h
        all_goals simp_all

/-- Helper: if `json.loads` returns an object, the first significant
character of the input is `{`. -/
theorem jsonLoads_obj_head {l : Chars} {kvs : JObj}
    (h : jsonLoads l = some (Json.obj kvs)) :
    ∃ rest, skipWs l = obrace :: rest := by
  unfold jsonLoads at h
  split at h
  · rename_i j rest hp
    split_ifs at h
    obtain rfl : j = Json.obj kvs := Option.some.inj h
    exact parseP_top_obj_head hp
  · simp at h

/-- Helper: fence handling turns the wrapped text into the stripped
inner text. -/
theorem preprocess_fencedWrap (J : Chars) :
    preprocess (fencedWrap J) = pyStrip J := by
  have h4 : startsWithL jsonWord
      (pyLower ('j' :: 's' :: 'o' :: 'n' :: '\n' :: (J ++ ('\n' :: [])))) = true := rfl
  simp only [preprocess, pyStrip_fencedWrap, startsWith_fencedWrap, if_true,
    stripBtick_fencedWrap, h4]
  exact pyStrip_nl_wrap J

/-- Helper: without a leading fence, preprocessing only strips
whitespace. -/
theorem preprocess_plain {J : Chars}
    (h : startsWithL fenceMark (pyStrip J) = false) :
    preprocess J = pyStrip J := by
  simp [preprocess, h]

/-- C8.  Wrapping a JSON object text in a ```` ```json ... ``` ````
fence does not change the normalizer's result: the fence delimiters
and the `json` tag are stripped before parsing. -/
theorem fenced_json_same_result (J : Chars) (kvs : JObj)
    (h : jsonLoads (pyStrip J) = some (Json.obj kvs)) :
    parse_and_normalize_output (fencedWrap J) = parse_and_normalize_output J := by
  obtain ⟨rest, hr⟩ := jsonLoads_obj_head h
  have hnil : pyStrip J ≠ [] := by
    intro hz
    rw [hz] at hr
    simp [skipWs] at hr
  obtain ⟨c, cs, hcons⟩ : ∃ c cs, pyStrip J = c :: cs := by
    rcases hpj : pyStrip J with _ | ⟨c, cs⟩
    · exact absurd hpj hnil
    · exact ⟨c, cs, rfl⟩
  have hpw : isPyWs c = false := head_pyStrip_not_ws hcons
  have hjw : jsonWsB c = false := jsonWsB_false_of_pyWs hpw
  have hskip : skipWs (pyStrip J) = pyStrip J := skipWs_eq_of_head hcons hjw
  have hc : c = obrace := by
    rw [hskip, hcons] at hr
    injection hr with h1 h2
  have hf : startsWithL fenceMark (pyStrip J) = false := by
    apply startsWith_fence_false hcons
    rw [hc]
    rfl
  unfold parse_and_normalize_output
  rw [preprocess_fencedWrap J, preprocess_plain hf]

/-- Witness for C8 at the concrete object `{"summary": "s"}`. -/
theorem fenced_json_same_result_witness :
    parse_and_normalize_output (fencedWrap embeddedObjText) =
      parse_and_normalize_output embeddedObjText :=
  fenced_json_same_result embeddedObjText kvsEmb rfl
